import Mathlib

/-!
Verification development for the healthwise-afya-siri media-analysis pipeline.

The definitions below are a shallow embedding of the Python sources
src/backend/app/services/media_service.py and src/backend/app/routes.py.
External effects (OpenCV decoding, MoviePy, ffmpeg, speech recognition,
Gemini inference calls) are modelled as explicit environment records whose
fields record the outcome of each external call; the control flow of the
Python functions is translated line by line on top of those records.
Truncating division int(i * frame_count / max_frames) is modelled as
natural-number floor division.
-/

namespace AfyaSiri

/-! ## Frame sampler (media_service.py, process_video_frames lines 352-354) -/

/-- Embedding of the frame-sampling rule shared by process_video_frames and
process_video (media_service.py lines 352-354 and 561-563):
max_frames = min(cap, frame_count);
frame_indices = [int(i * frame_count / max_frames) for i in range(max_frames)]. -/
def frame_indices (frame_count cap : Nat) : List Nat :=
  let max_frames := min cap frame_count
  (List.range max_frames).map (fun i => i * frame_count / max_frames)

lemma sample_index_strict_mono {frame_count cap i j : Nat}
    (hcap : 0 < cap) (hlt : cap < frame_count) (hij : i < j) :
    i * frame_count / cap < j * frame_count / cap := by
  have h1 : (i * frame_count / cap + 1) * cap ≤ j * frame_count := by
    have hb : i * frame_count / cap * cap ≤ i * frame_count := Nat.div_mul_le_self _ _
    have h3 : (i + 1) * frame_count ≤ j * frame_count :=
      Nat.mul_le_mul (Nat.succ_le_of_lt hij) (Nat.le_refl frame_count)
    have h2 : i * frame_count + cap < (i + 1) * frame_count := by
      have hfc : i * frame_count + frame_count = (i + 1) * frame_count := by ring
      omega
    have h4 : (i * frame_count / cap + 1) * cap = i * frame_count / cap * cap + cap := by ring
    omega
  exact Nat.lt_of_succ_le ((Nat.le_div_iff_mul_le hcap).mpr h1)

/-- C1: for every video with frame_count ≥ 1 and every max_frames ≥ 1, if
frame_count ≤ max_frames the sampled frame indices are exactly
0..frame_count-1; otherwise they are floor(i * frame_count / max_frames) for
i = 0..max_frames-1, a strictly increasing sequence of length max_frames
whose first element is 0; in particular a 10-frame video with max_frames = 5
yields indices [0, 2, 4, 6, 8]. -/
theorem frame_sampling_correct (frame_count max_frames : Nat)
    (hfc : 1 ≤ frame_count) (hmf : 1 ≤ max_frames) :
    (frame_count ≤ max_frames → frame_indices frame_count max_frames = List.range frame_count) ∧
    (max_frames < frame_count →
      frame_indices frame_count max_frames
          = (List.range max_frames).map (fun i => i * frame_count / max_frames) ∧
        List.Pairwise (· < ·) (frame_indices frame_count max_frames) ∧
        (frame_indices frame_count max_frames).length = max_frames ∧
        (frame_indices frame_count max_frames).head? = some 0) ∧
    frame_indices 10 5 = [0, 2, 4, 6, 8] := by
  refine ⟨?_, ?_, by decide⟩
  · intro h
    unfold frame_indices
    rw [Nat.min_eq_right h]
    have hid : ∀ i ∈ List.range frame_count, i * frame_count / frame_count = i :=
      fun i _ => Nat.mul_div_cancel i hfc
    rw [List.map_congr_left hid]
    simp
  · intro h
    have hmin : min max_frames frame_count = max_frames := Nat.min_eq_left (Nat.le_of_lt h)
    have hdef : frame_indices frame_count max_frames
        = (List.range max_frames).map (fun i => i * frame_count / max_frames) := by
      unfold frame_indices
      rw [hmin]
    refine ⟨hdef, ?_, ?_, ?_⟩
    · rw [hdef, List.pairwise_map]
      exact (List.pairwise_lt_range max_frames).imp
        (fun hij => sample_index_strict_mono hmf h hij)
    · rw [hdef, List.length_map, List.length_range]
    · rw [hdef]
      obtain ⟨m, rfl⟩ : ∃ m, max_frames = m + 1 := ⟨max_frames - 1, by omega⟩
      rw [List.range_succ_eq_map]
      simp

/-- Witness for C1 at concrete inputs: a 3-frame video with cap 7 keeps all
indices, and the 10-frame / 5-sample scenario yields [0, 2, 4, 6, 8]. -/
theorem frame_sampling_correct_witness :
    frame_indices 3 7 = List.range 3 ∧
    frame_indices 10 5 = [0, 2, 4, 6, 8] ∧
    List.Pairwise (· < ·) (frame_indices 12 5) :=
  ⟨(frame_sampling_correct 3 7 (by decide) (by decide)).1 (by decide),
   (frame_sampling_correct 10 5 (by decide) (by decide)).2.2,
   ((frame_sampling_correct 12 5 (by decide) (by decide)).2.1 (by decide)).2.1⟩

/-! ## Job registry (routes.py, processing_jobs and handle_comprehensive_video) -/

/-- Job status values written into processing_jobs[job_id]['status']
(routes.py lines 43, 48, 51, 59, 62, 67, 73, 247, 300). -/
inductive JobStatus where
  | queued
  | processing
  | completed
  | failed
deriving DecidableEq, Repr

/-- Entry stored in processing_jobs at submission
(routes.py lines 246-252 and 300-306). -/
structure JobRecord where
  status : JobStatus
  jtype : String
  file_path : String
  created_at : Nat
  progress : Nat
deriving DecidableEq, Repr

/-- In-memory job map processing_jobs (routes.py line 25). -/
abbrev Registry := String → Option JobRecord

/-- Embedding of the job-creation step of handle_comprehensive_video
(routes.py lines 244-252): processing_jobs[job_id] = {'status': 'queued',
'type': 'comprehensive', 'file_path': file_path, 'created_at': now,
'progress': 0}. The assignment is unconditional: an existing entry under the
same key is overwritten. -/
def register_comprehensive_job (reg : Registry) (job_id file_path : String) (now : Nat) :
    Registry :=
  fun k =>
    if k = job_id then
      some { status := .queued, jtype := "comprehensive", file_path := file_path,
             created_at := now, progress := 0 }
    else reg k

/-! ## Audio extractor (media_service.py, extract_audio_from_video lines 102-201) -/

/-- Outcome of the MoviePy VideoFileClip load and its audio attribute
(media_service.py lines 112-119). -/
inductive LoadOutcome where
  | loadError
  | noAudio
  | hasAudio
deriving DecidableEq, Repr

/-- Outcome of audio_clip.write_audiofile (media_service.py lines 128-147);
written carries whether the output file exists with size > 0. -/
inductive WriteOutcome where
  | writeError
  | written (nonEmpty : Bool)
deriving DecidableEq, Repr

/-- Modelled external environment of extract_audio_from_video: the MoviePy
primary strategy and the ffmpeg subprocess fallback. -/
structure AudioEnv where
  load : LoadOutcome
  write : WriteOutcome
  ffmpegRa : Bool
  ffmpegReturncode : Nat
  ffmpegFileNonEmpty : Bool
deriving DecidableEq, Repr

/-- Embedding of the ffmpeg fallback (media_service.py lines 162-197):
subprocess raising, a nonzero return code, or an empty/missing output file
each yield None; otherwise the audio path is returned. -/
def ffmpeg_extract (video_path : String) (env : AudioEnv) : Option String :=
  if env.ffmpegRa then none
  else if env.ffmpegReturncode = 0 then
    if env.ffmpegFileNonEmpty then some (video_path ++ "_audio.wav") else none
  else none

/-- Embedding of extract_audio_from_video (media_service.py lines 102-201).
The first component is the returned audio path (none for Python None); the
second records whether the ffmpeg fallback was attempted. Every failure of
the MoviePy strategy (load exception, missing audio track, write exception,
empty or missing output file) falls through to the ffmpeg fallback. -/
def extract_audio_from_video (video_path : String) (env : AudioEnv) :
    Option String × Bool :=
  match env.load with
  | .loadError => (ffmpeg_extract video_path env, true)
  | .noAudio => (ffmpeg_extract video_path env, true)
  | .hasAudio =>
    match env.write with
    | .writeError => (ffmpeg_extract video_path env, true)
    | .written nonEmpty =>
      if nonEmpty then (some (video_path ++ "_audio.wav"), false)
      else (ffmpeg_extract video_path env, true)

/-- Primary (MoviePy) strategy succeeds: the clip loads, has an audio track,
and write_audiofile produces a non-empty file. -/
def primary_succeeds (env : AudioEnv) : Bool :=
  env.load == .hasAudio && env.write == .written true

/-- Fallback (ffmpeg) strategy fails: the subprocess raises, exits nonzero,
or leaves an empty/missing output file. -/
def ffmpeg_fails (env : AudioEnv) : Bool :=
  env.ffmpegRa || env.ffmpegReturncode != 0 || !env.ffmpegFileNonEmpty

/-! ## Speech transcription (media_service.py, process_video_audio lines 203-309) -/

/-- Outcome of recognizer.recognize_google plus the surrounding recording
code (media_service.py lines 231-305): a transcript, sr.UnknownValueError,
sr.RequestError, or any other exception raised inside the outer try. -/
inductive RecognizeOutcome where
  | ok (transcript : String)
  | unknownValue
  | requestError
  | otherError (e : String)
deriving DecidableEq, Repr

/-- Modelled external environment of the speech path: WAV conversion,
recognition, and the Gemini analysis of the transcript. -/
structure SpeechEnv where
  convert : Except String String
  recognize : RecognizeOutcome
  analyze : Except String String

def couldNotExtractAudioMsg : String :=
  "Could not extract audio from the video. The video may not have an audio track or the format may be unsupported."

def noSpeechMsg : String :=
  "The video's audio track doesn't contain any recognizable speech."

def unintelligibleMsg : String :=
  "I couldn't understand what was said in the video. The audio may be unclear or there might not be any speech."

def recognitionServiceMsg : String :=
  "There was an error with the speech recognition service. Please try again later."

/-- Return value of process_video_audio: either a plain string (Python
returns a message string on every failure) or the transcript/analysis dict
returned on success (media_service.py lines 291-294). -/
inductive AudioProcResult where
  | message (msg : String)
  | ok (transcript analysis : String)
deriving DecidableEq, Repr

/-- Embedding of process_video_audio (media_service.py lines 203-309). -/
def process_video_audio (video_path : String) (aenv : AudioEnv) (senv : SpeechEnv) :
    AudioProcResult :=
  match (extract_audio_from_video video_path aenv).1 with
  | none => .message couldNotExtractAudioMsg
  | some _ =>
    match senv.convert with
    | .error e => .message ("Error converting audio: " ++ e)
    | .ok _ =>
      match senv.recognize with
      | .otherError e => .message ("Error processing audio data: " ++ e)
      | .unknownValue => .message unintelligibleMsg
      | .requestError => .message recognitionServiceMsg
      | .ok transcript =>
        if transcript.data.all Char.isWhitespace then .message noSpeechMsg
        else
          match senv.analyze with
          | .ok analysis => .ok transcript analysis
          | .error e => .message ("Error processing audio data: " ++ e)

/-! ## Vision analyzer (media_service.py, process_video_frames lines 311-412) -/

/-- Modelled external environment of process_video_frames: whether the video
opened, its frame count, per-iteration frame-read success, the per-frame
Gemini analysis call, and the summarization call. -/
structure FramesEnv where
  opened : Bool
  frame_count : Nat
  readFrame : Nat → Bool
  analyzeFrame : Nat → Except String String
  summarize : String → Except String String

def couldNotOpenMsg : String :=
  "Could not open the video file. The format may be unsupported."

def emptyVideoMsg : String :=
  "This video appears to be empty or corrupted. Please try a different file."

def noUsableFramesMsg : String :=
  "Could not analyze any frames from the video. Please try a different file."

def frameProcessingErrorMsg (e : String) : String :=
  "An error occurred while processing your video: " ++ e ++ ". Please try again."

/-- Embedding of the per-frame loop (media_service.py lines 357-396): for
each (idx, frame_idx) pair a failed cap.read is skipped, a per-frame
inference failure is caught and skipped, and a successful analysis is
appended to analysis_results. -/
def frames_analysis_results (env : FramesEnv) : List String :=
  ((frame_indices env.frame_count 5).enum).filterMap fun p =>
    if env.readFrame p.2 then
      match env.analyzeFrame p.1 with
      | .ok s => some s
      | .error _ => none
    else none

/-- Embedding of process_video_frames (media_service.py lines 311-412).
A raise from the summarization call is caught by the outer except and
converted into the generic error message. -/
def process_video_frames (env : FramesEnv) : String :=
  if env.opened = false then couldNotOpenMsg
  else if env.frame_count = 0 then emptyVideoMsg
  else
    let results := frames_analysis_results env
    if results = [] then noUsableFramesMsg
    else
      match env.summarize (String.intercalate "\n\n" results) with
      | .ok s => s
      | .error e => frameProcessingErrorMsg e

/-! ## Comprehensive processing (media_service.py, process_comprehensive_video lines 414-503) -/

/-- Modelled external environment of a comprehensive job. -/
structure CompEnv where
  fileExists : Bool
  frames : FramesEnv
  audio : AudioEnv
  speech : SpeechEnv
  combine : Except String String

/-- Result dictionary of process_comprehensive_video; a field is none when
the corresponding key is absent or holds Python None. -/
structure CompResult where
  visual_analysis : Option String
  has_audio : Bool
  audio_transcript : Option String
  audio_analysis : Option String
  audio_error : Option String
  combined_analysis : Option String
  error : Option String
deriving DecidableEq, Repr

/-- Initial result dictionary (media_service.py lines 429-434). -/
def emptyCompResult : CompResult :=
  { visual_analysis := none, has_audio := false, audio_transcript := none,
    audio_analysis := none, audio_error := none, combined_analysis := none,
    error := none }

/-- Error dictionary {'error': e} returned on a missing file or an unhandled
exception (media_service.py lines 439 and 503). -/
def errorCompResult (e : String) : CompResult :=
  { emptyCompResult with error := some e }

/-- Python truthiness of an optional string value: present and non-empty. -/
def truthy : Option String → Bool
  | some s => s != ""
  | none => false

def fileNotFoundMsg : String :=
  "Video file could not be found. Please try uploading again."

/-- Embedding of process_comprehensive_video (media_service.py lines
414-503). The frames path runs for 'frames' or 'auto'; the audio path runs
for 'audio' or 'auto'; the combination call runs only when visual_analysis
and audio_analysis are both truthy and the type is 'auto'; a raise from the
combination call is caught by the outer except and becomes an error dict. -/
def process_comprehensive_video (video_path processing_type : String) (env : CompEnv) :
    CompResult :=
  if env.fileExists = false then errorCompResult fileNotFoundMsg
  else
    let r0 := emptyCompResult
    let r1 :=
      if processing_type = "frames" ∨ processing_type = "auto" then
        { r0 with visual_analysis := some (process_video_frames env.frames) }
      else r0
    let r2 :=
      if processing_type = "audio" ∨ processing_type = "auto" then
        match process_video_audio video_path env.audio env.speech with
        | .ok t a =>
          { r1 with has_audio := true, audio_transcript := some t, audio_analysis := some a }
        | .message m =>
          { r1 with has_audio := false, audio_error := some m }
      else r1
    if truthy r2.visual_analysis && truthy r2.audio_analysis && processing_type == "auto" then
      match env.combine with
      | .ok c => { r2 with combined_analysis := some c }
      | .error e => errorCompResult (frameProcessingErrorMsg e)
    else r2

/-! ## Background worker (routes.py, process_video_in_background lines 40-74) -/

/-- Result payload the worker stores into processing_jobs[job_id]['result']. -/
inductive JobResult where
  | audioRes (transcript analysis : String)
  | compRes (r : CompResult)
  | framesRes (visual_analysis : String)
deriving DecidableEq, Repr

/-- Observable effect of one worker run: the ordered status writes it makes
to the registry entry, the stored result, and the stored error. -/
structure WorkerRun where
  statusWrites : List JobStatus
  result : Option JobResult
  error : Option String
deriving DecidableEq, Repr

/-- Terminal handling of the 'auto'/'comprehensive' branch of the worker
(routes.py lines 56-63): a result dict carrying an 'error' key marks the job
failed with that error; otherwise the job completes and stores the dict. -/
def worker_comp_outcome (r : CompResult) : WorkerRun :=
  match r.error with
  | some e => { statusWrites := [.processing, .failed], result := none, error := some e }
  | none =>
    { statusWrites := [.processing, .completed], result := some (.compRes r), error := none }

/-- Embedding of process_video_in_background (routes.py lines 40-74): the
worker first writes 'processing', dispatches on processing_type ('audio';
then 'auto' or 'comprehensive'; otherwise frames only), and writes exactly
one terminal status. -/
def process_video_in_background (processing_type video_path : String) (env : CompEnv) :
    WorkerRun :=
  if processing_type = "audio" then
    match process_video_audio video_path env.audio env.speech with
    | .message m => { statusWrites := [.processing, .failed], result := none, error := some m }
    | .ok t a =>
      { statusWrites := [.processing, .completed], result := some (.audioRes t a), error := none }
  else if processing_type = "auto" ∨ processing_type = "comprehensive" then
    worker_comp_outcome (process_comprehensive_video video_path processing_type env)
  else
    { statusWrites := [.processing, .completed],
      result := some (.framesRes (process_video_frames env.frames)), error := none }

/-- Status history of a job: 'queued' written at submission
(routes.py line 247), followed by the worker's status writes. -/
def jobStatusTrace (processing_type video_path : String) (env : CompEnv) : List JobStatus :=
  .queued :: (process_video_in_background processing_type video_path env).statusWrites

/-- Rank of a status along the Queued, Processing, terminal lifecycle. -/
def statusRank : JobStatus → Nat
  | .queued => 0
  | .processing => 1
  | .completed => 2
  | .failed => 2

/-! ## Concrete sample environments used by witnesses and counterexamples -/

def sampleSpeech : SpeechEnv :=
  { convert := .ok "a.wav", recognize := .ok "hello", analyze := .ok "analysis" }

def sampleAudioOk : AudioEnv :=
  { load := .hasAudio, write := .written true, ffmpegRa := false,
    ffmpegReturncode := 0, ffmpegFileNonEmpty := true }

def sampleFrames : FramesEnv :=
  { opened := true, frame_count := 10, readFrame := fun _ => true,
    analyzeFrame := fun _ => .ok "frame text", summarize := fun _ => .ok "summary" }

def sampleEnv : CompEnv :=
  { fileExists := true, frames := sampleFrames, audio := sampleAudioOk,
    speech := sampleSpeech, combine := .ok "combined" }

def framesAllFail : FramesEnv :=
  { opened := true, frame_count := 3, readFrame := fun _ => true,
    analyzeFrame := fun _ => .error "model unavailable", summarize := fun _ => .ok "unused" }

def framesSummaryFails : FramesEnv :=
  { opened := true, frame_count := 3, readFrame := fun _ => true,
    analyzeFrame := fun _ => .ok "frame text", summarize := fun _ => .error "summary model down" }

def audioNoTrack : AudioEnv :=
  { load := .noAudio, write := .written true, ffmpegRa := false,
    ffmpegReturncode := 1, ffmpegFileNonEmpty := false }

def audioTrackButFails : AudioEnv :=
  { load := .hasAudio, write := .writeError, ffmpegRa := false,
    ffmpegReturncode := 1, ffmpegFileNonEmpty := false }

def envFramesAllFail : CompEnv :=
  { sampleEnv with frames := framesAllFail }

def envBothFail : CompEnv :=
  { sampleEnv with frames := framesAllFail, audio := audioNoTrack }

def envCombineFails : CompEnv :=
  { sampleEnv with combine := .error "combine model down" }

def envAudioFail : CompEnv :=
  { sampleEnv with audio := audioNoTrack }

def regWithJob : Registry :=
  fun k =>
    if k = "job-1" then
      some { status := .completed, jtype := "comprehensive", file_path := "old.mp4",
             created_at := 3, progress := 0 }
    else none

/-! ## Claim theorems -/

/-- C3: for every job, the observed status sequence is monotonic along
Queued, Processing, terminal (Completed or Failed): the job reaches
Processing before any terminal state, never regresses, and never leaves a
terminal state — the trace is exactly [queued, processing, t] with t
terminal, and the status rank strictly increases along it. -/
theorem job_status_monotonic (processing_type video_path : String) (env : CompEnv) :
    ∃ t : JobStatus, (t = .completed ∨ t = .failed) ∧
      jobStatusTrace processing_type video_path env = [.queued, .processing, t] ∧
      List.Chain' (fun a b => statusRank a < statusRank b)
        (jobStatusTrace processing_type video_path env) := by
  have key : ∃ t : JobStatus, (t = .completed ∨ t = .failed) ∧
      (process_video_in_background processing_type video_path env).statusWrites
        = [.processing, t] := by
    unfold process_video_in_background
    by_cases h1 : processing_type = "audio"
    · rw [if_pos h1]
      cases process_video_audio video_path env.audio env.speech with
      | message m => exact ⟨.failed, Or.inr rfl, rfl⟩
      | ok t a => exact ⟨.completed, Or.inl rfl, rfl⟩
    · rw [if_neg h1]
      by_cases h2 : processing_type = "auto" ∨ processing_type = "comprehensive"
      · rw [if_pos h2]
        unfold worker_comp_outcome
        cases (process_comprehensive_video video_path processing_type env).error with
        | none => exact ⟨.completed, Or.inl rfl, rfl⟩
        | some e => exact ⟨.failed, Or.inr rfl, rfl⟩
      · rw [if_neg h2]
        exact ⟨.completed, Or.inl rfl, rfl⟩
  obtain ⟨t, ht, hw⟩ := key
  have htr : jobStatusTrace processing_type video_path env = [.queued, .processing, t] := by
    unfold jobStatusTrace
    rw [hw]
  refine ⟨t, ht, htr, ?_⟩
  rw [htr]
  rcases ht with rfl | rfl <;> simp [List.chain'_cons, statusRank]

/-- C4 counterexample: submitting a job id that is already registered does
not fail with DuplicateJobId and does not leave the existing entry
unchanged — the completed entry stored under "job-1" is silently replaced
by a fresh queued entry. -/
theorem duplicate_job_counterexample :
    register_comprehensive_job regWithJob "job-1" "new.mp4" 7 "job-1" ≠ regWithJob "job-1" ∧
    register_comprehensive_job regWithJob "job-1" "new.mp4" 7 "job-1" =
      some { status := .queued, jtype := "comprehensive", file_path := "new.mp4",
             created_at := 7, progress := 0 } := by
  constructor <;> decide

/-- C4 amended: submission never fails with DuplicateJobId; any submission
(fresh or duplicate job id) unconditionally stores a fresh Queued entry
under that id, overwriting whatever was there, and leaves every other
registry entry unchanged. -/
theorem register_overwrites (reg : Registry) (job_id file_path : String) (now : Nat) :
    register_comprehensive_job reg job_id file_path now job_id =
      some { status := .queued, jtype := "comprehensive", file_path := file_path,
             created_at := now, progress := 0 } ∧
    ∀ k, k ≠ job_id → register_comprehensive_job reg job_id file_path now k = reg k := by
  constructor
  · simp [register_comprehensive_job]
  · intro k hk
    simp [register_comprehensive_job, hk]

/-- Witness for the amended C4 at a concrete registry: resubmitting "job-1"
stores a queued entry, and an unrelated key is untouched. -/
theorem register_overwrites_witness :
    register_comprehensive_job regWithJob "job-1" "new.mp4" 7 "job-1" =
      some { status := .queued, jtype := "comprehensive", file_path := "new.mp4",
             created_at := 7, progress := 0 } ∧
    register_comprehensive_job regWithJob "job-1" "new.mp4" 7 "other" = regWithJob "other" :=
  ⟨(register_overwrites regWithJob "job-1" "new.mp4" 7).1,
   (register_overwrites regWithJob "job-1" "new.mp4" 7).2 "other" (by decide)⟩

/-- C8: whenever the primary MoviePy strategy does not succeed (load raises,
the container reports no audio stream, the write raises, or the written file
is empty or missing), the ffmpeg fallback is attempted; and extraction
reports failure (None) only when the fallback was attempted and itself
failed (the subprocess raised, exited nonzero, or left an empty/missing
output file). -/
theorem audio_fallback_before_failure (video_path : String) (env : AudioEnv) :
    (primary_succeeds env = false → (extract_audio_from_video video_path env).2 = true) ∧
    ((extract_audio_from_video video_path env).1 = none →
      (extract_audio_from_video video_path env).2 = true ∧ ffmpeg_fails env = true) := by
  obtain ⟨l, w, fr, rc, fe⟩ := env
  have hff : ffmpeg_extract video_path ⟨l, w, fr, rc, fe⟩ = none →
      ffmpeg_fails ⟨l, w, fr, rc, fe⟩ = true := by
    unfold ffmpeg_extract ffmpeg_fails
    cases fr
    · by_cases hrc : rc = 0
      · cases fe <;> simp [hrc]
      · simp [hrc]
    · simp
  constructor
  · intro hp
    cases l with
    | loadError => rfl
    | noAudio => rfl
    | hasAudio =>
      cases w with
      | writeError => rfl
      | written ne =>
        cases ne
        · rfl
        · simp [primary_succeeds] at hp
  · intro hnone
    cases l with
    | loadError => exact ⟨rfl, hff hnone⟩
    | noAudio => exact ⟨rfl, hff hnone⟩
    | hasAudio =>
      cases w with
      | writeError => exact ⟨rfl, hff hnone⟩
      | written ne =>
        cases ne
        · exact ⟨rfl, hff hnone⟩
        · simp [extract_audio_from_video] at hnone

lemma worker_auto_eq (video_path : String) (env : CompEnv) :
    process_video_in_background "auto" video_path env =
      worker_comp_outcome (process_comprehensive_video video_path "auto" env) := rfl

lemma comp_auto_audio_fail (video_path : String) (env : CompEnv) (m : String)
    (hex : env.fileExists = true)
    (hm : process_video_audio video_path env.audio env.speech = .message m) :
    process_comprehensive_video video_path "auto" env =
      { visual_analysis := some (process_video_frames env.frames), has_audio := false,
        audio_transcript := none, audio_analysis := none, audio_error := some m,
        combined_analysis := none, error := none } := by
  unfold process_comprehensive_video
  rw [hex, hm]
  simp [truthy, emptyCompResult]

lemma comp_auto_ok_ok (video_path : String) (env : CompEnv) (t a c : String)
    (hex : env.fileExists = true)
    (haud : process_video_audio video_path env.audio env.speech = .ok t a)
    (hv : process_video_frames env.frames ≠ "") (ha : a ≠ "")
    (hc : env.combine = .ok c) :
    process_comprehensive_video video_path "auto" env =
      { visual_analysis := some (process_video_frames env.frames), has_audio := true,
        audio_transcript := some t, audio_analysis := some a, audio_error := none,
        combined_analysis := some c, error := none } := by
  have hv' : (process_video_frames env.frames != "") = true := bne_iff_ne.mpr hv
  have ha' : (a != "") = true := bne_iff_ne.mpr ha
  unfold process_comprehensive_video
  rw [hex, haud, hc]
  simp [truthy, hv', ha', emptyCompResult]

lemma comp_auto_ok_err (video_path : String) (env : CompEnv) (t a e : String)
    (hex : env.fileExists = true)
    (haud : process_video_audio video_path env.audio env.speech = .ok t a)
    (hv : process_video_frames env.frames ≠ "") (ha : a ≠ "")
    (hc : env.combine = .error e) :
    process_comprehensive_video video_path "auto" env
      = errorCompResult (frameProcessingErrorMsg e) := by
  have hv' : (process_video_frames env.frames != "") = true := bne_iff_ne.mpr hv
  have ha' : (a != "") = true := bne_iff_ne.mpr ha
  unfold process_comprehensive_video
  rw [hex, haud, hc]
  simp [truthy, hv', ha', emptyCompResult, errorCompResult]

/-- Witness for C8 at a concrete environment in which the MoviePy write
raises and the ffmpeg fallback exits nonzero. -/
theorem audio_fallback_before_failure_witness :
    (extract_audio_from_video "v.mp4" audioTrackButFails).2 = true ∧
    ((extract_audio_from_video "v.mp4" audioTrackButFails).2 = true ∧
      ffmpeg_fails audioTrackButFails = true) :=
  ⟨(audio_fallback_before_failure "v.mp4" audioTrackButFails).1 (by decide),
   (audio_fallback_before_failure "v.mp4" audioTrackButFails).2 (by decide)⟩

/-- C2 counterexample: in sampleEnv every external call would succeed, yet a
job whose processing type is 'comprehensive' (accepted and forwarded
unchanged by the submission route) runs neither the frames path nor the
audio path — the result records neither a visual analysis nor any audio
outcome; and for an 'auto' job in which both modalities fail (envBothFail)
the job ends Completed with no error, not Failed with an aggregated error. -/
theorem comprehensive_dispatch_counterexample :
    (process_comprehensive_video "v.mp4" "comprehensive" sampleEnv).visual_analysis = none ∧
    (process_comprehensive_video "v.mp4" "comprehensive" sampleEnv).has_audio = false ∧
    (process_comprehensive_video "v.mp4" "comprehensive" sampleEnv).audio_error = none ∧
    (process_video_in_background "auto" "v.mp4" envBothFail).statusWrites
      = [.processing, .completed] ∧
    (process_video_in_background "auto" "v.mp4" envBothFail).error = none := by
  refine ⟨?_, ?_, ?_, ?_, ?_⟩ <;> decide

/-- C2 amended: for every 'auto' job on an existing file, both paths run.
When the audio path fails, the result carries the frames outcome as
visual_analysis, has_audio = false, audio_error set to the audio failure
message and no combined_analysis, and the job completes — including when the
frames outcome is itself an error message, so a job in which both modalities
fail still completes. When the audio path succeeds with a non-empty analysis,
the frames outcome is non-empty and the combination call returns c, the
result additionally carries combined_analysis = c and the job completes.
Jobs whose processing type is 'comprehensive' run neither path (see the
C10 theorem). -/
theorem comprehensive_auto_amended (video_path : String) (env : CompEnv)
    (hex : env.fileExists = true) :
    (∀ m, process_video_audio video_path env.audio env.speech = .message m →
        process_comprehensive_video video_path "auto" env =
          { visual_analysis := some (process_video_frames env.frames), has_audio := false,
            audio_transcript := none, audio_analysis := none, audio_error := some m,
            combined_analysis := none, error := none } ∧
        (process_video_in_background "auto" video_path env).statusWrites
          = [.processing, .completed]) ∧
    (∀ t a c, process_video_audio video_path env.audio env.speech = .ok t a →
        process_video_frames env.frames ≠ "" → a ≠ "" → env.combine = .ok c →
        process_comprehensive_video video_path "auto" env =
          { visual_analysis := some (process_video_frames env.frames), has_audio := true,
            audio_transcript := some t, audio_analysis := some a, audio_error := none,
            combined_analysis := some c, error := none } ∧
        (process_video_in_background "auto" video_path env).statusWrites
          = [.processing, .completed]) := by
  constructor
  · intro m hm
    have h1 := comp_auto_audio_fail video_path env m hex hm
    refine ⟨h1, ?_⟩
    rw [worker_auto_eq, h1]
    rfl
  · intro t a c ht hv ha hc
    have h1 := comp_auto_ok_ok video_path env t a c hex ht hv ha hc
    refine ⟨h1, ?_⟩
    rw [worker_auto_eq, h1]
    rfl

/-- Witness for the amended C2: in sampleEnv the audio path succeeds, the
frames path succeeds, the combination call returns "combined", and the job
completes with all fields populated. -/
theorem comprehensive_auto_amended_witness :
    process_comprehensive_video "v.mp4" "auto" sampleEnv =
      { visual_analysis := some (process_video_frames sampleEnv.frames), has_audio := true,
        audio_transcript := some "hello", audio_analysis := some "analysis",
        audio_error := none, combined_analysis := some "combined", error := none } ∧
    (process_video_in_background "auto" "v.mp4" sampleEnv).statusWrites
      = [.processing, .completed] :=
  (comprehensive_auto_amended "v.mp4" sampleEnv rfl).2 "hello" "analysis" "combined"
    (by decide) (by decide) (by decide) rfl

/-- C5 counterexample: with every per-frame inference call failing
(framesAllFail), process_video_frames returns the no-usable-frames message
string and the frames job ends Completed with that string stored as the
visual analysis — not Failed with a NoUsableFrames error. -/
theorem all_frames_fail_counterexample :
    process_video_frames framesAllFail = noUsableFramesMsg ∧
    process_video_in_background "frames" "v.mp4" envFramesAllFail =
      { statusWrites := [.processing, .completed],
        result := some (.framesRes noUsableFramesMsg), error := none } := by
  constructor <;> decide

/-- C5 amended: when the video opens, has at least one frame, and every
per-frame inference call fails, the visual analysis returns the message
"Could not analyze any frames from the video. Please try a different file."
and the frames job ends Completed with that message as its visual analysis
(the job does not fail). -/
theorem all_frames_fail_amended (video_path : String) (env : CompEnv)
    (hop : env.frames.opened = true) (hfc : env.frames.frame_count ≠ 0)
    (h : ∀ i, ∃ e, env.frames.analyzeFrame i = .error e) :
    process_video_frames env.frames = noUsableFramesMsg ∧
    process_video_in_background "frames" video_path env =
      { statusWrites := [.processing, .completed],
        result := some (.framesRes noUsableFramesMsg), error := none } := by
  have hres : frames_analysis_results env.frames = [] := by
    unfold frames_analysis_results
    rw [List.filterMap_eq_nil_iff]
    intro p hp
    obtain ⟨e, he⟩ := h p.1
    by_cases hr : env.frames.readFrame p.2 = true
    · simp [hr, he]
    · simp [hr]
  have hpf : process_video_frames env.frames = noUsableFramesMsg := by
    unfold process_video_frames
    rw [hop]
    simp [hfc, hres]
  have hbg : process_video_in_background "frames" video_path env =
      { statusWrites := [.processing, .completed],
        result := some (.framesRes (process_video_frames env.frames)), error := none } := rfl
  rw [hbg, hpf]
  exact ⟨rfl, rfl⟩

/-- Witness for the amended C5 at the concrete environment framesAllFail. -/
theorem all_frames_fail_amended_witness :
    process_video_frames envFramesAllFail.frames = noUsableFramesMsg ∧
    process_video_in_background "frames" "vid.mp4" envFramesAllFail =
      { statusWrites := [.processing, .completed],
        result := some (.framesRes noUsableFramesMsg), error := none } :=
  all_frames_fail_amended "vid.mp4" envFramesAllFail rfl (by decide)
    (fun _ => ⟨"model unavailable", rfl⟩)

/-- C6 counterexample: in framesSummaryFails every per-frame call succeeds
but the narrative-summary call raises; process_video_frames returns the
generic error message, not the concatenation of the per-frame texts. -/
theorem summary_fallback_counterexample :
    process_video_frames framesSummaryFails
      = frameProcessingErrorMsg "summary model down" ∧
    process_video_frames framesSummaryFails
      ≠ String.intercalate "\n\n" (frames_analysis_results framesSummaryFails) := by
  constructor <;> decide

/-- C6 amended: when at least one frame succeeds but the narrative-summary
inference call raises with message e, process_video_frames returns the
generic error message "An error occurred while processing your video: e.
Please try again." — the concatenated per-frame texts are only fed to the
summarizer and are never returned as a fallback. -/
theorem summary_failure_amended (env : FramesEnv) (e : String)
    (hop : env.opened = true) (hfc : env.frame_count ≠ 0)
    (hne : frames_analysis_results env ≠ [])
    (hsum : env.summarize (String.intercalate "\n\n" (frames_analysis_results env))
      = .error e) :
    process_video_frames env = frameProcessingErrorMsg e := by
  unfold process_video_frames
  rw [hop]
  simp [hfc, hne, hsum]

/-- Witness for the amended C6 at the concrete environment
framesSummaryFails. -/
theorem summary_failure_amended_witness :
    process_video_frames framesSummaryFails
      = frameProcessingErrorMsg "summary model down" :=
  summary_failure_amended framesSummaryFails "summary model down" rfl (by decide)
    (by decide) rfl

/-- C7 counterexample: in envCombineFails both modalities produce results
but the combination call raises; the whole comprehensive processing returns
an error dict and the job transitions to Failed, discarding the
single-modality results. -/
theorem combination_failure_counterexample :
    (process_video_in_background "auto" "v.mp4" envCombineFails).statusWrites
      = [.processing, .failed] ∧
    (process_video_in_background "auto" "v.mp4" envCombineFails).error
      = some (frameProcessingErrorMsg "combine model down") ∧
    (process_video_in_background "auto" "v.mp4" envCombineFails).result = none := by
  refine ⟨?_, ?_, ?_⟩ <;> decide

/-- C7 amended: for an 'auto' job in which both modalities produced
(non-empty) results, the job's fate follows the combination call: if the
call raises, process_comprehensive_video returns only an error dict and the
job transitions to Failed; the job completes (with combined_analysis set to
the returned string) only when the combination call returns normally. -/
theorem combination_failure_amended (video_path : String) (env : CompEnv) (t a : String)
    (hex : env.fileExists = true)
    (haud : process_video_audio video_path env.audio env.speech = .ok t a)
    (hv : process_video_frames env.frames ≠ "") (ha : a ≠ "") :
    (∀ e, env.combine = .error e →
        process_comprehensive_video video_path "auto" env
          = errorCompResult (frameProcessingErrorMsg e) ∧
        (process_video_in_background "auto" video_path env).statusWrites
          = [.processing, .failed]) ∧
    (∀ c, env.combine = .ok c →
        (process_comprehensive_video video_path "auto" env).combined_analysis = some c ∧
        (process_video_in_background "auto" video_path env).statusWrites
          = [.processing, .completed]) := by
  constructor
  · intro e hc
    have h1 := comp_auto_ok_err video_path env t a e hex haud hv ha hc
    refine ⟨h1, ?_⟩
    rw [worker_auto_eq, h1]
    rfl
  · intro c hc
    have h1 := comp_auto_ok_ok video_path env t a c hex haud hv ha hc
    constructor
    · rw [h1]
    · rw [worker_auto_eq, h1]
      rfl

/-- Witness for the amended C7 at the concrete environment envCombineFails,
in which both modalities succeed and the combination call raises. -/
theorem combination_failure_amended_witness :
    process_comprehensive_video "v.mp4" "auto" envCombineFails
      = errorCompResult (frameProcessingErrorMsg "combine model down") ∧
    (process_video_in_background "auto" "v.mp4" envCombineFails).statusWrites
      = [.processing, .failed] :=
  (combination_failure_amended "v.mp4" envCombineFails "hello" "analysis" rfl
      (by decide) (by decide) (by decide)).1 "combine model down" rfl

/-- C9 counterexample: a video with no audio stream (audioNoTrack) and a
video whose audio track is present but whose extraction fails at every
strategy (audioTrackButFails) produce identical outputs — the single message
string couldNotExtractAudioMsg — so the reported failure does not
distinguish NoAudioTrack from ExtractionFailed. -/
theorem audio_failure_indistinct_counterexample :
    process_video_audio "v.mp4" audioNoTrack sampleSpeech
      = .message couldNotExtractAudioMsg ∧
    process_video_audio "v.mp4" audioTrackButFails sampleSpeech
      = .message couldNotExtractAudioMsg := by
  constructor <;> decide

/-- C9 amended: every extraction failure — no audio stream or failed
extraction alike — is reported as the single combined message "Could not
extract audio from the video. The video may not have an audio track or the
format may be unsupported."; the rest of the pipeline is not aborted: an
'auto' job records the message as audio_error with has_audio = false, still
carries the frames outcome as visual_analysis, and completes. -/
theorem audio_failure_uniform_amended (video_path : String) (env : CompEnv)
    (hex : env.fileExists = true)
    (hfail : (extract_audio_from_video video_path env.audio).1 = none) :
    process_video_audio video_path env.audio env.speech
      = .message couldNotExtractAudioMsg ∧
    process_comprehensive_video video_path "auto" env =
      { visual_analysis := some (process_video_frames env.frames), has_audio := false,
        audio_transcript := none, audio_analysis := none,
        audio_error := some couldNotExtractAudioMsg, combined_analysis := none,
        error := none } ∧
    (process_video_in_background "auto" video_path env).statusWrites
      = [.processing, .completed] := by
  have hmsg : process_video_audio video_path env.audio env.speech
      = .message couldNotExtractAudioMsg := by
    unfold process_video_audio
    rw [hfail]
  have h1 := comp_auto_audio_fail video_path env couldNotExtractAudioMsg hex hmsg
  refine ⟨hmsg, h1, ?_⟩
  rw [worker_auto_eq, h1]
  rfl

/-- Witness for the amended C9 at the concrete environment envAudioFail. -/
theorem audio_failure_uniform_amended_witness :
    process_video_audio "v.mp4" envAudioFail.audio envAudioFail.speech
      = .message couldNotExtractAudioMsg ∧
    process_comprehensive_video "v.mp4" "auto" envAudioFail =
      { visual_analysis := some (process_video_frames envAudioFail.frames),
        has_audio := false, audio_transcript := none, audio_analysis := none,
        audio_error := some couldNotExtractAudioMsg, combined_analysis := none,
        error := none } ∧
    (process_video_in_background "auto" "v.mp4" envAudioFail).statusWrites
      = [.processing, .completed] :=
  audio_failure_uniform_amended "v.mp4" envAudioFail rfl (by decide)

lemma comp_other_empty (video_path processing_type : String) (env : CompEnv)
    (hex : env.fileExists = true) (h1 : processing_type ≠ "frames")
    (h2 : processing_type ≠ "audio") (h3 : processing_type ≠ "auto") :
    process_comprehensive_video video_path processing_type env = emptyCompResult := by
  unfold process_comprehensive_video
  rw [hex]
  simp [h1, h2, h3, truthy, emptyCompResult]

/-- C10: for every processing-type value other than 'frames', 'audio' and
'auto' — including 'comprehensive', which the submission route accepts and
forwards unchanged — process_comprehensive_video (on an existing file) runs
neither the frames path nor the audio path and returns the initial dict
{visual_analysis: None, has_audio: False, audio_transcript: None,
audio_analysis: None} with no combined_analysis and no error key, so a
'comprehensive' job transitions to Completed with that all-empty result. -/
theorem unknown_type_empty_result (video_path processing_type : String) (env : CompEnv)
    (hex : env.fileExists = true) (h1 : processing_type ≠ "frames")
    (h2 : processing_type ≠ "audio") (h3 : processing_type ≠ "auto") :
    process_comprehensive_video video_path processing_type env = emptyCompResult ∧
    process_video_in_background "comprehensive" video_path env =
      { statusWrites := [.processing, .completed],
        result := some (.compRes emptyCompResult), error := none } := by
  refine ⟨comp_other_empty video_path processing_type env hex h1 h2 h3, ?_⟩
  have hcomp := comp_other_empty video_path "comprehensive" env hex
    (by decide) (by decide) (by decide)
  have hbg : process_video_in_background "comprehensive" video_path env =
      worker_comp_outcome (process_comprehensive_video video_path "comprehensive" env) := rfl
  rw [hbg, hcomp]
  rfl

/-- Witness for C10 at the concrete environment sampleEnv, in which every
external call would succeed if any path ran. -/
theorem unknown_type_empty_result_witness :
    process_comprehensive_video "v.mp4" "comprehensive" sampleEnv = emptyCompResult ∧
    process_video_in_background "comprehensive" "v.mp4" sampleEnv =
      { statusWrites := [.processing, .completed],
        result := some (.compRes emptyCompResult), error := none } :=
  unknown_type_empty_result "v.mp4" "comprehensive" sampleEnv rfl
    (by decide) (by decide) (by decide)

end AfyaSiri
